import Mathlib

/-!
Verification of the materials-aggregation ETL script
(src/aggregate_materials_final.py) against its specification.

The script is a straight-line pandas pipeline.  We embed it shallowly:

* a dataframe cell is `Option String` (`none` is pandas NaN/NA; the
  columns the pipeline manipulates are text columns, and the generic
  cleaning stage of lines 109-117 only touches string columns — numeric
  columns carry no string content, so nothing is lost by modelling every
  cell as an optional string);
* each of the six input tables is a list of records whose fields are the
  columns fixed by the source (the script addresses these columns by
  name, so a run that completes has exactly these schemas);
* pandas left-merge is `joinRows`: every left row is kept, matched
  against the right rows by key equality (pandas matches NaN keys with
  NaN keys, hence plain equality on `Option String`), with `none` filled
  in for right-side columns when there is no match;
* the fallible stage (the TypeCode backfill lambda of lines 88-91, which
  subscripts `row[MaterialReference]` and raises TypeError when that
  value is NaN) returns `Except`.
-/

namespace AggregateMaterials

/-- A dataframe cell: `none` is pandas NaN/NA, `some s` a string value. -/
abbrev Cell := Option String

/-- Rendering of a cell by pandas `astype(str)`: NaN prints as the
literal string "nan". -/
def astypeStr : Cell → String
  | none => "nan"
  | some s => s

/-- The characters stripped by Python `str.strip()`: exactly the code
points CPython treats as whitespace — the ASCII controls `\t` through
`\r` and `\x1c`-`\x1f`, the space, next-line `\x85`, no-break space
`\xa0`, ogham space mark `\u1680`, the en-quad..hair-space range
`\u2000`-`\u200a`, line separator `\u2028`, paragraph separator
`\u2029`, narrow no-break space `\u202f`, medium mathematical space
`\u205f`, and ideographic space `\u3000`. -/
def isSpace (c : Char) : Bool :=
  c = ' ' || c = '\t' || c = '\n' || c = '\x0b' || c = '\x0c' || c = '\r' ||
    c = '\x1c' || c = '\x1d' || c = '\x1e' || c = '\x1f' ||
    c = '\x85' || c = '\xa0' || c = '\u1680' ||
    (decide ('\u2000' ≤ c) && decide (c ≤ '\u200a')) ||
    c = '\u2028' || c = '\u2029' || c = '\u202f' || c = '\u205f' ||
    c = '\u3000'

/-- Python `str.strip()` on the character list: drop whitespace from both
ends. -/
def stripList (l : List Char) : List Char :=
  ((l.dropWhile isSpace).reverse.dropWhile isSpace).reverse

/-- Python `str.strip()` (pandas `.str.strip()`, line 114). -/
def pyStrip (s : String) : String :=
  String.mk (stripList s.data)

/-- Python `str.zfill w` on a character list: left-pad with zeros to
width `w`, keeping a leading sign in front of the padding.  Strings of
length at least `w` are returned unchanged (no truncation). -/
def pyZfillList (l : List Char) (w : Nat) : List Char :=
  if w ≤ l.length then l
  else
    match l with
    | [] => List.replicate w '0'
    | c :: rest =>
      if c = '-' || c = '+' then c :: (List.replicate (w - l.length) '0' ++ rest)
      else List.replicate (w - l.length) '0' ++ (c :: rest)

/-- Python `str.zfill` (pandas `.str.zfill(4)`, lines 96-97). -/
def pyZfill (s : String) (w : Nat) : String :=
  String.mk (pyZfillList s.data w)

/-- The cleaning applied to every string column of every table
(lines 112-117): `astype(str).str.strip()`, then the empty string and
the literal string "nan" are collapsed to NA. -/
def cleanCell (c : Cell) : Cell :=
  let s := pyStrip (astypeStr c)
  if s = "" then none
  else if s = "nan" then none
  else some s

/-- `result.fillna` (line 211): a null cell is exported as "N/A". -/
def fillnaCell (c : Cell) : String :=
  match c with
  | none => "N/A"
  | some s => s

/-! ### Input table schemas (spec section 3; the columns the script
addresses by name).  `ReporderPoint` keeps the spelling used by the
output column list at line 194. -/

structure MaterialsRow where
  MaterialReference : Cell
  ManufacturerID : Cell
  TypeCode : Cell
  ShortText : Cell
  ArticleNumber : Cell
deriving DecidableEq, Repr

structure ManufacturerNamesRow where
  ManufacturerID : Cell
  ManufacturerName : Cell
deriving DecidableEq, Repr

structure PlantsRow where
  MaterialReference : Cell
  Plant : Cell
  Disposition : Cell
  ReporderPoint : Cell
deriving DecidableEq, Repr

structure SuppliersRow where
  MaterialReference : Cell
  SupplierID : Cell
  SupplierArticleNumber : Cell
deriving DecidableEq, Repr

structure SupplierNamesRow where
  SupplierID : Cell
  SupplierName : Cell
deriving DecidableEq, Repr

structure StorageRow where
  MaterialReference : Cell
  Plant : Cell
  StorageLocation : Cell
  StorageBin : Cell
  DeletedStorageLevel : Cell
deriving DecidableEq, Repr

/-- The six loaded tables, in the order of the loading dict
(lines 30-37). -/
structure Tables where
  materials : List MaterialsRow
  plants : List PlantsRow
  storage : List StorageRow
  suppliers : List SuppliersRow
  supplier_names : List SupplierNamesRow
  manufacturer_names : List ManufacturerNamesRow
deriving DecidableEq, Repr

/-! ### Field fixes (lines 59 and 88-97) -/

/-- Line 59: replace a DeletedStorageLevel value that is exactly a
single space with "ACTIVE". -/
def fixStorageRow (s : StorageRow) : StorageRow :=
  { s with DeletedStorageLevel :=
      if s.DeletedStorageLevel = some " " then some "ACTIVE"
      else s.DeletedStorageLevel }

/-- Python slicing `s[-2:]`: the last two characters of `s`, or all of
`s` when it is shorter than two characters. -/
def pyLastTwo (s : String) : String :=
  String.mk (s.data.drop (s.data.length - 2))

/-- Lines 88-91: the TypeCode backfill lambda.  When TypeCode is NaN it
computes `row[MaterialReference][-2:]`; if MaterialReference is itself
NaN (a float), Python raises TypeError, which no handler catches. -/
def backfillTypeCode (m : MaterialsRow) : Except String MaterialsRow :=
  match m.TypeCode with
  | some _ => Except.ok m
  | none =>
    match m.MaterialReference with
    | some ref =>
      Except.ok { m with TypeCode := some ("TC00000000" ++ pyLastTwo ref) }
    | none => Except.error "TypeError: NaN MaterialReference is not subscriptable"

/-- Line 96: `plants[Plant] = plants[Plant].astype(str).str.zfill(4)`. -/
def zfillPlantsRow (p : PlantsRow) : PlantsRow :=
  { p with Plant := some (pyZfill (astypeStr p.Plant) 4) }

/-- Line 97: the same zero-padding on the storage table. -/
def zfillStorageRow (s : StorageRow) : StorageRow :=
  { s with Plant := some (pyZfill (astypeStr s.Plant) 4) }

/-! ### Cleaning (lines 109-119), column by column -/

def cleanMaterialsRow (m : MaterialsRow) : MaterialsRow :=
  ⟨cleanCell m.MaterialReference, cleanCell m.ManufacturerID,
   cleanCell m.TypeCode, cleanCell m.ShortText, cleanCell m.ArticleNumber⟩

def cleanManufacturerNamesRow (n : ManufacturerNamesRow) : ManufacturerNamesRow :=
  ⟨cleanCell n.ManufacturerID, cleanCell n.ManufacturerName⟩

def cleanPlantsRow (p : PlantsRow) : PlantsRow :=
  ⟨cleanCell p.MaterialReference, cleanCell p.Plant,
   cleanCell p.Disposition, cleanCell p.ReporderPoint⟩

def cleanSuppliersRow (s : SuppliersRow) : SuppliersRow :=
  ⟨cleanCell s.MaterialReference, cleanCell s.SupplierID,
   cleanCell s.SupplierArticleNumber⟩

def cleanSupplierNamesRow (n : SupplierNamesRow) : SupplierNamesRow :=
  ⟨cleanCell n.SupplierID, cleanCell n.SupplierName⟩

def cleanStorageRow (s : StorageRow) : StorageRow :=
  ⟨cleanCell s.MaterialReference, cleanCell s.Plant,
   cleanCell s.StorageLocation, cleanCell s.StorageBin,
   cleanCell s.DeletedStorageLevel⟩

/-- What the plants table undergoes before the joins: zero-padding
(line 96) and then generic cleaning (lines 109-117). -/
def plantsPipeline (p : PlantsRow) : PlantsRow :=
  cleanPlantsRow (zfillPlantsRow p)

/-- What the storage table undergoes before the joins, in source order:
the space-to-ACTIVE fix (line 59), zero-padding (line 97), then generic
cleaning (lines 109-117). -/
def storagePipeline (s : StorageRow) : StorageRow :=
  cleanStorageRow (zfillStorageRow (fixStorageRow s))

/-- `List.mapM` specialised to `Except`, evaluated front to back, so the
first raising row aborts, exactly as `DataFrame.apply` does. -/
def mapExcept (f : α → Except ε β) : List α → Except ε (List β)
  | [] => Except.ok []
  | a :: rest =>
    match f a with
    | Except.error e => Except.error e
    | Except.ok b =>
      match mapExcept f rest with
      | Except.error e => Except.error e
      | Except.ok bs => Except.ok (b :: bs)

/-- All transformations before the joins (lines 55-124): storage fix,
TypeCode backfill, Plant zero-padding, then the generic cleaning of
every table.  Errors only if the backfill lambda raises. -/
def transform (t : Tables) : Except String Tables :=
  match mapExcept backfillTypeCode t.materials with
  | Except.error e => Except.error e
  | Except.ok ms =>
    Except.ok
      { materials := ms.map cleanMaterialsRow
        plants := t.plants.map plantsPipeline
        storage := t.storage.map storagePipeline
        suppliers := t.suppliers.map cleanSuppliersRow
        supplier_names := t.supplier_names.map cleanSupplierNamesRow
        manufacturer_names := t.manufacturer_names.map cleanManufacturerNamesRow }

/-! ### Left joins (lines 144-175)

`joinRows` is pandas `merge(..., how=left)`: every left row is kept in
order; a left row with matching right rows produces one output row per
match (fan-out), a left row with no match produces a single output row
whose right-side columns are null. -/

def joinRows (l : List α) (ms : α → List β) (comb : α → β → γ) (ne : α → γ) :
    List γ :=
  match l with
  | [] => []
  | a :: rest =>
    (match ms a with
     | [] => [ne a]
     | bs => bs.map (comb a)) ++ joinRows rest ms comb ne

/-- Result schema of step 1 (line 144-149): materials joined with
manufacturer names on ManufacturerID, ManufacturerID dropped. -/
structure Step1Row where
  MaterialReference : Cell
  TypeCode : Cell
  ShortText : Cell
  ArticleNumber : Cell
  ManufacturerName : Cell
deriving DecidableEq, Repr

/-- Result schema of step 2 (line 155): plants columns added. -/
structure Step2Row where
  MaterialReference : Cell
  TypeCode : Cell
  ShortText : Cell
  ArticleNumber : Cell
  ManufacturerName : Cell
  Plant : Cell
  Disposition : Cell
  ReporderPoint : Cell
deriving DecidableEq, Repr

/-- Result schema of step 3 (line 161): suppliers columns added. -/
structure Step3Row where
  MaterialReference : Cell
  TypeCode : Cell
  ShortText : Cell
  ArticleNumber : Cell
  ManufacturerName : Cell
  Plant : Cell
  Disposition : Cell
  ReporderPoint : Cell
  SupplierID : Cell
  SupplierArticleNumber : Cell
deriving DecidableEq, Repr

/-- Result schema of step 4 (lines 167-168): supplier names added and
SupplierID dropped. -/
structure Step4Row where
  MaterialReference : Cell
  TypeCode : Cell
  ShortText : Cell
  ArticleNumber : Cell
  ManufacturerName : Cell
  Plant : Cell
  Disposition : Cell
  ReporderPoint : Cell
  SupplierArticleNumber : Cell
  SupplierName : Cell
deriving DecidableEq, Repr

/-- Result schema of step 5 (line 174): storage columns added. -/
structure Step5Row where
  MaterialReference : Cell
  TypeCode : Cell
  ShortText : Cell
  ArticleNumber : Cell
  ManufacturerName : Cell
  Plant : Cell
  Disposition : Cell
  ReporderPoint : Cell
  SupplierArticleNumber : Cell
  SupplierName : Cell
  StorageLocation : Cell
  StorageBin : Cell
  DeletedStorageLevel : Cell
deriving DecidableEq, Repr

/-- Step 1 key match: `on=ManufacturerID` (line 146). -/
def matches1 (mn : List ManufacturerNamesRow) (m : MaterialsRow) :
    List ManufacturerNamesRow :=
  mn.filter (fun n => n.ManufacturerID = m.ManufacturerID)

def combine1 (m : MaterialsRow) (n : ManufacturerNamesRow) : Step1Row :=
  ⟨m.MaterialReference, m.TypeCode, m.ShortText, m.ArticleNumber,
   n.ManufacturerName⟩

def noMatch1 (m : MaterialsRow) : Step1Row :=
  ⟨m.MaterialReference, m.TypeCode, m.ShortText, m.ArticleNumber, none⟩

/-- Step 1 (lines 144-149): left join on ManufacturerID, then drop
ManufacturerID (only the resolved name is kept). -/
def step1 (materials : List MaterialsRow) (mn : List ManufacturerNamesRow) :
    List Step1Row :=
  joinRows materials (matches1 mn) combine1 noMatch1

/-- Step 2 key match: `on=MaterialReference` (line 155). -/
def matches2 (pl : List PlantsRow) (a : Step1Row) : List PlantsRow :=
  pl.filter (fun p => p.MaterialReference = a.MaterialReference)

def combine2 (a : Step1Row) (p : PlantsRow) : Step2Row :=
  ⟨a.MaterialReference, a.TypeCode, a.ShortText, a.ArticleNumber,
   a.ManufacturerName, p.Plant, p.Disposition, p.ReporderPoint⟩

def noMatch2 (a : Step1Row) : Step2Row :=
  ⟨a.MaterialReference, a.TypeCode, a.ShortText, a.ArticleNumber,
   a.ManufacturerName, none, none, none⟩

/-- Step 2 (line 155): left join with plants on MaterialReference. -/
def step2 (l : List Step1Row) (pl : List PlantsRow) : List Step2Row :=
  joinRows l (matches2 pl) combine2 noMatch2

/-- Step 3 key match: `on=[MaterialReference]` (line 161). -/
def matches3 (su : List SuppliersRow) (a : Step2Row) : List SuppliersRow :=
  su.filter (fun s => s.MaterialReference = a.MaterialReference)

def combine3 (a : Step2Row) (s : SuppliersRow) : Step3Row :=
  ⟨a.MaterialReference, a.TypeCode, a.ShortText, a.ArticleNumber,
   a.ManufacturerName, a.Plant, a.Disposition, a.ReporderPoint,
   s.SupplierID, s.SupplierArticleNumber⟩

def noMatch3 (a : Step2Row) : Step3Row :=
  ⟨a.MaterialReference, a.TypeCode, a.ShortText, a.ArticleNumber,
   a.ManufacturerName, a.Plant, a.Disposition, a.ReporderPoint,
   none, none⟩

/-- Step 3 (line 161): left join with suppliers on MaterialReference. -/
def step3 (l : List Step2Row) (su : List SuppliersRow) : List Step3Row :=
  joinRows l (matches3 su) combine3 noMatch3

/-- Step 4 key match: `on=SupplierID` (line 167). -/
def matches4 (sn : List SupplierNamesRow) (a : Step3Row) :
    List SupplierNamesRow :=
  sn.filter (fun n => n.SupplierID = a.SupplierID)

def combine4 (a : Step3Row) (n : SupplierNamesRow) : Step4Row :=
  ⟨a.MaterialReference, a.TypeCode, a.ShortText, a.ArticleNumber,
   a.ManufacturerName, a.Plant, a.Disposition, a.ReporderPoint,
   a.SupplierArticleNumber, n.SupplierName⟩

def noMatch4 (a : Step3Row) : Step4Row :=
  ⟨a.MaterialReference, a.TypeCode, a.ShortText, a.ArticleNumber,
   a.ManufacturerName, a.Plant, a.Disposition, a.ReporderPoint,
   a.SupplierArticleNumber, none⟩

/-- Step 4 (lines 167-168): left join with supplier names on SupplierID,
then drop SupplierID. -/
def step4 (l : List Step3Row) (sn : List SupplierNamesRow) : List Step4Row :=
  joinRows l (matches4 sn) combine4 noMatch4

/-- Step 5 key match: `on=[MaterialReference, Plant]` (line 174). -/
def matches5 (st : List StorageRow) (a : Step4Row) : List StorageRow :=
  st.filter (fun s =>
    decide (s.MaterialReference = a.MaterialReference) &&
    decide (s.Plant = a.Plant))

def combine5 (a : Step4Row) (s : StorageRow) : Step5Row :=
  ⟨a.MaterialReference, a.TypeCode, a.ShortText, a.ArticleNumber,
   a.ManufacturerName, a.Plant, a.Disposition, a.ReporderPoint,
   a.SupplierArticleNumber, a.SupplierName,
   s.StorageLocation, s.StorageBin, s.DeletedStorageLevel⟩

def noMatch5 (a : Step4Row) : Step5Row :=
  ⟨a.MaterialReference, a.TypeCode, a.ShortText, a.ArticleNumber,
   a.ManufacturerName, a.Plant, a.Disposition, a.ReporderPoint,
   a.SupplierArticleNumber, a.SupplierName, none, none, none⟩

/-- Step 5 (line 174): left join with storage on the composite key
(MaterialReference, Plant). -/
def step5 (l : List Step4Row) (st : List StorageRow) : List Step5Row :=
  joinRows l (matches5 st) combine5 noMatch5

/-! ### The aggregation chain (lines 144-175) on transformed tables -/

def agg1 (t : Tables) : List Step1Row := step1 t.materials t.manufacturer_names

def agg2 (t : Tables) : List Step2Row := step2 (agg1 t) t.plants

def agg3 (t : Tables) : List Step3Row := step3 (agg2 t) t.suppliers

def agg4 (t : Tables) : List Step4Row := step4 (agg3 t) t.supplier_names

/-- The full five-join chain applied to (already transformed) tables. -/
def aggregate (t : Tables) : List Step5Row :=
  step5 (agg4 t) t.storage

/-! ### Formatting and export (lines 186-211) -/

/-- The fixed output column sequence of lines 186-200. -/
def finalColumns : List String :=
  ["MaterialReference", "ManufacturerName", "ArticleNumber", "TypeCode",
   "ShortText", "Plant", "Disposition", "ReporderPoint", "SupplierName",
   "SupplierArticleNumber", "StorageLocation", "StorageBin",
   "DeletedStorageLevel"]

/-- One exported row: the 13 columns in the order of lines 186-200, each
null filled with "N/A" (line 211). -/
def exportRow (g : Step5Row) : List (String × String) :=
  [("MaterialReference", fillnaCell g.MaterialReference),
   ("ManufacturerName", fillnaCell g.ManufacturerName),
   ("ArticleNumber", fillnaCell g.ArticleNumber),
   ("TypeCode", fillnaCell g.TypeCode),
   ("ShortText", fillnaCell g.ShortText),
   ("Plant", fillnaCell g.Plant),
   ("Disposition", fillnaCell g.Disposition),
   ("ReporderPoint", fillnaCell g.ReporderPoint),
   ("SupplierName", fillnaCell g.SupplierName),
   ("SupplierArticleNumber", fillnaCell g.SupplierArticleNumber),
   ("StorageLocation", fillnaCell g.StorageLocation),
   ("StorageBin", fillnaCell g.StorageBin),
   ("DeletedStorageLevel", fillnaCell g.DeletedStorageLevel)]

/-- The whole in-memory pipeline after loading: transformations,
aggregation, column reordering, null filling.  The result is the table
written to result.xlsx. -/
def exportTable (t : Tables) :
    Except String (List (List (String × String))) :=
  match transform t with
  | Except.error e => Except.error e
  | Except.ok t2 => Except.ok ((aggregate t2).map exportRow)

/-! ### Process model (lines 29-50 and 246-257)

Loading is the only stage with an error handler: any of the six
`read_excel` calls failing makes the script log the error, print it and
call `exit(1)` before any transformation runs.  A TypeError raised by
the backfill lambda is unhandled: the interpreter aborts with a
traceback (non-zero exit status), nothing is exported and the logger
records no error. -/

structure Loads where
  materials : Except String (List MaterialsRow)
  plants : Except String (List PlantsRow)
  storage : Except String (List StorageRow)
  suppliers : Except String (List SuppliersRow)
  supplier_names : Except String (List SupplierNamesRow)
  manufacturer_names : Except String (List ManufacturerNamesRow)

inductive RunResult where
  /-- result.xlsx written, exit status 0. -/
  | success (out : List (List (String × String)))
  /-- A load failed: handled by lines 43-50 (logged, printed, exit(1)). -/
  | loadFailure (msg : String)
  /-- An exception after loading with no handler: traceback, non-zero
  exit status, nothing logged by the logger, nothing written. -/
  | unhandled (msg : String)
deriving DecidableEq, Repr

def RunResult.exitCode : RunResult → Nat
  | RunResult.success _ => 0
  | RunResult.loadFailure _ => 1
  | RunResult.unhandled _ => 1

def RunResult.outputWritten : RunResult → Bool
  | RunResult.success _ => true
  | RunResult.loadFailure _ => false
  | RunResult.unhandled _ => false

/-- Whether the failure was caught, logged via `logging.error` and
echoed to the console (lines 43-50). -/
def RunResult.errorLogged : RunResult → Bool
  | RunResult.success _ => false
  | RunResult.loadFailure _ => true
  | RunResult.unhandled _ => false

/-- The whole script: the six loads are attempted in dict order
(lines 30-37) inside one try block; the first failure aborts the run,
otherwise the pipeline proper executes. -/
def run (L : Loads) : RunResult :=
  match L.materials with
  | Except.error e => RunResult.loadFailure e
  | Except.ok m =>
    match L.plants with
    | Except.error e => RunResult.loadFailure e
    | Except.ok p =>
      match L.storage with
      | Except.error e => RunResult.loadFailure e
      | Except.ok st =>
        match L.suppliers with
        | Except.error e => RunResult.loadFailure e
        | Except.ok su =>
          match L.supplier_names with
          | Except.error e => RunResult.loadFailure e
          | Except.ok sn =>
            match L.manufacturer_names with
            | Except.error e => RunResult.loadFailure e
            | Except.ok mn =>
              match exportTable ⟨m, p, st, su, sn, mn⟩ with
              | Except.error e => RunResult.unhandled e
              | Except.ok out => RunResult.success out

/-- Loads in which all six files load successfully. -/
def okLoads (t : Tables) : Loads :=
  ⟨Except.ok t.materials, Except.ok t.plants, Except.ok t.storage,
   Except.ok t.suppliers, Except.ok t.supplier_names,
   Except.ok t.manufacturer_names⟩

/-! ### Decidable equality for `Except`, used to evaluate the pipeline
on concrete inputs. -/

instance {ε α : Type} [DecidableEq ε] [DecidableEq α] :
    DecidableEq (Except ε α) := fun a b =>
  match a, b with
  | Except.ok x, Except.ok y =>
    if h : x = y then Decidable.isTrue (by simp [h])
    else Decidable.isFalse (by simp [h])
  | Except.ok _, Except.error _ => Decidable.isFalse (by simp)
  | Except.error _, Except.ok _ => Decidable.isFalse (by simp)
  | Except.error e, Except.error f =>
    if h : e = f then Decidable.isTrue (by simp [h])
    else Decidable.isFalse (by simp [h])

/-! ### Generic facts about the left join -/

/-- Every output row of a left join comes from a left row: either as its
null extension (no match) or combined with a matching right row. -/
theorem joinRows_mem {l : List α} {ms : α → List β} {comb : α → β → γ}
    {ne : α → γ} {g : γ} (hg : g ∈ joinRows l ms comb ne) :
    ∃ a, a ∈ l ∧ (g = ne a ∨ ∃ b, b ∈ ms a ∧ g = comb a b) := by
  induction l with
  | nil => simp [joinRows] at hg
  | cons a rest ih =>
    cases hms : ms a with
    | nil =>
      rw [joinRows, hms] at hg
      rcases List.mem_append.mp hg with h | h
      · simp at h
        exact ⟨a, List.mem_cons_self a rest, Or.inl h⟩
      · obtain ⟨a2, ha2, hcase⟩ := ih h
        exact ⟨a2, List.mem_cons_of_mem a ha2, hcase⟩
    | cons b bs =>
      rw [joinRows, hms] at hg
      rcases List.mem_append.mp hg with h | h
      · simp only [List.mem_map] at h
        obtain ⟨b2, hb2, hgb⟩ := h
        exact ⟨a, List.mem_cons_self a rest,
          Or.inr ⟨b2, by rw [hms]; exact hb2, hgb.symm⟩⟩
      · obtain ⟨a2, ha2, hcase⟩ := ih h
        exact ⟨a2, List.mem_cons_of_mem a ha2, hcase⟩

/-- A property that holds of every null extension and of every combined
pair holds of every output row of the left join. -/
theorem joinRows_forall {l : List α} {ms : α → List β} {comb : α → β → γ}
    {ne : α → γ} {P : γ → Prop}
    (h1 : ∀ a ∈ l, P (ne a)) (h2 : ∀ a ∈ l, ∀ b ∈ ms a, P (comb a b)) :
    ∀ g ∈ joinRows l ms comb ne, P g := by
  intro g hg
  obtain ⟨a, ha, hcase⟩ := joinRows_mem hg
  rcases hcase with h | ⟨b, hb, hgb⟩
  · rw [h]; exact h1 a ha
  · rw [hgb]; exact h2 a ha b hb

/-- A left join never drops rows: each left row contributes at least one
output row. -/
theorem joinRows_length_ge (l : List α) (ms : α → List β)
    (comb : α → β → γ) (ne : α → γ) :
    l.length ≤ (joinRows l ms comb ne).length := by
  induction l with
  | nil => simp [joinRows]
  | cons a rest ih =>
    cases hms : ms a with
    | nil =>
      rw [joinRows, hms]
      simp only [List.length_append, List.length_cons, List.length_nil]
      omega
    | cons b bs =>
      rw [joinRows, hms]
      simp only [List.length_append, List.length_cons, List.length_map, List.length_nil]
      omega

/-- If every left row matches at most one right row, the left join
preserves the row count exactly. -/
theorem joinRows_length_eq {l : List α} {ms : α → List β}
    {comb : α → β → γ} {ne : α → γ}
    (h : ∀ a ∈ l, (ms a).length ≤ 1) :
    (joinRows l ms comb ne).length = l.length := by
  induction l with
  | nil => simp [joinRows]
  | cons a rest ih =>
    have ihr := ih (fun x hx => h x (List.mem_cons_of_mem a hx))
    cases hms : ms a with
    | nil =>
      rw [joinRows, hms]
      simp only [List.length_append, List.length_cons, List.length_nil]
      omega
    | cons b bs =>
      have hlen := h a (List.mem_cons_self a rest)
      rw [hms] at hlen
      simp only [List.length_cons] at hlen
      have hbs : bs.length = 0 := by omega
      rw [joinRows, hms]
      simp only [List.length_append, List.length_cons, List.length_map, List.length_nil]
      omega

/-- Conversely, if a left join preserves the row count exactly then
every left row matched at most one right row. -/
theorem joinRows_uniq_of_length_eq {l : List α} {ms : α → List β}
    {comb : α → β → γ} {ne : α → γ}
    (h : (joinRows l ms comb ne).length = l.length) :
    ∀ a ∈ l, (ms a).length ≤ 1 := by
  induction l with
  | nil => simp
  | cons a rest ih =>
    have htail := joinRows_length_ge rest ms comb ne
    cases hms : ms a with
    | nil =>
      rw [joinRows, hms] at h
      simp only [List.length_append, List.length_cons, List.length_nil] at h
      have htaileq : (joinRows rest ms comb ne).length = rest.length := by
        omega
      intro x hx
      rcases List.mem_cons.mp hx with hxa | hxrest
      · subst hxa; simp [hms]
      · exact ih htaileq x hxrest
    | cons b bs =>
      rw [joinRows, hms] at h
      simp only [List.length_append, List.length_cons, List.length_map, List.length_nil] at h
      have hbs : bs.length = 0 := by omega
      have htaileq : (joinRows rest ms comb ne).length = rest.length := by
        omega
      intro x hx
      rcases List.mem_cons.mp hx with hxa | hxrest
      · subst hxa
        rw [hms]
        simp only [List.length_cons]
        omega
      · exact ih htaileq x hxrest

/-! ### Facts about the string helpers -/

theorem mapExcept_ok_length {f : α → Except ε β} {l : List α} {l2 : List β}
    (h : mapExcept f l = Except.ok l2) : l2.length = l.length := by
  induction l generalizing l2 with
  | nil =>
    simp only [mapExcept] at h
    cases h
    rfl
  | cons a rest ih =>
    simp only [mapExcept] at h
    cases hfa : f a with
    | error e => rw [hfa] at h; exact absurd h (by simp)
    | ok b =>
      rw [hfa] at h
      cases hrest : mapExcept f rest with
      | error e => rw [hrest] at h; exact absurd h (by simp)
      | ok bs =>
        rw [hrest] at h
        cases h
        simp [ih hrest]

/-- If some row makes `f` fail, `mapExcept` fails. -/
theorem mapExcept_error_of_mem {f : α → Except ε β} {l : List α} {a : α}
    (ha : a ∈ l) (he : ∀ b, f a ≠ Except.ok b) :
    ∃ e, mapExcept f l = Except.error e := by
  induction l with
  | nil => simp at ha
  | cons x rest ih =>
    rcases List.mem_cons.mp ha with hax | harest
    · subst hax
      cases hfa : f a with
      | error e => exact ⟨e, by simp [mapExcept, hfa]⟩
      | ok b => exact absurd hfa (he b)
    · cases hfx : f x with
      | error e => exact ⟨e, by simp [mapExcept, hfx]⟩
      | ok b =>
        obtain ⟨e, hrest⟩ := ih harest
        exact ⟨e, by simp [mapExcept, hfx, hrest]⟩

/-- If every row succeeds, `mapExcept` succeeds. -/
theorem mapExcept_ok_of_forall {f : α → Except ε β} {l : List α}
    (h : ∀ a ∈ l, ∃ b, f a = Except.ok b) :
    ∃ l2, mapExcept f l = Except.ok l2 := by
  induction l with
  | nil => exact ⟨[], rfl⟩
  | cons a rest ih =>
    obtain ⟨b, hb⟩ := h a (List.mem_cons_self a rest)
    obtain ⟨bs, hbs⟩ := ih (fun x hx => h x (List.mem_cons_of_mem a hx))
    exact ⟨b :: bs, by simp [mapExcept, hb, hbs]⟩

theorem dropWhile_head_false (p : α → Bool) (l : List α) :
    l.dropWhile p = [] ∨
      ∃ a t, l.dropWhile p = a :: t ∧ p a = false := by
  induction l with
  | nil => exact Or.inl rfl
  | cons a rest ih =>
    by_cases hpa : p a
    · simpa [List.dropWhile_cons, hpa] using ih
    · exact Or.inr ⟨a, rest, by simp [List.dropWhile_cons, hpa],
        by simp [hpa]⟩

theorem dropWhile_eq_self_of_all {p : α → Bool} {l : List α}
    (h : ∀ a ∈ l, p a = false) : l.dropWhile p = l := by
  cases l with
  | nil => rfl
  | cons a rest =>
    simp [List.dropWhile_cons, h a (List.mem_cons_self a rest)]

/-- Stripping a string that contains no whitespace leaves it unchanged. -/
theorem stripList_eq_self_of_no_space {l : List Char}
    (h : ∀ c ∈ l, isSpace c = false) : stripList l = l := by
  unfold stripList
  rw [dropWhile_eq_self_of_all h,
    dropWhile_eq_self_of_all (fun c hc => h c (List.mem_reverse.mp hc)),
    List.reverse_reverse]

/-- A nonempty stripped string contains a non-whitespace character (its
boundary characters are not whitespace). -/
theorem stripList_has_nonspace {l : List Char} (h : stripList l ≠ []) :
    ∃ c, c ∈ stripList l ∧ isSpace c = false := by
  unfold stripList at h ⊢
  rcases dropWhile_head_false isSpace (l.dropWhile isSpace).reverse with
    h0 | ⟨a, t, heq, hpa⟩
  · rw [h0] at h
    simp at h
  · rw [heq]
    exact ⟨a, by simp, hpa⟩

/-- Zero-padding to width `w` of a string no longer than `w` gives
exactly `w` characters. -/
theorem pyZfillList_length {l : List Char} {w : Nat} (h : l.length ≤ w) :
    (pyZfillList l w).length = w := by
  cases l with
  | nil =>
    simp only [pyZfillList]
    split
    · simp only [List.length_nil] at *
      omega
    · simp [List.length_replicate]
  | cons c rest =>
    simp only [pyZfillList]
    split
    · rename_i hw
      simp only [List.length_cons] at *
      omega
    · rename_i hw
      split
      · simp only [List.length_cons, List.length_append,
          List.length_replicate] at *
        omega
      · simp only [List.length_cons, List.length_append,
          List.length_replicate] at *
        omega

/-- Zero-padding never introduces whitespace. -/
theorem pyZfillList_no_space {l : List Char} {w : Nat}
    (h : ∀ c ∈ l, isSpace c = false) :
    ∀ c ∈ pyZfillList l w, isSpace c = false := by
  intro c hc
  cases l with
  | nil =>
    simp only [pyZfillList] at hc
    split at hc
    · simp at hc
    · simp only [List.mem_replicate] at hc
      rw [hc.2]
      decide
  | cons a rest =>
    simp only [pyZfillList] at hc
    split at hc
    · exact h c hc
    · split at hc
      · rcases List.mem_cons.mp hc with hca | hcarest
        · exact hca ▸ h a (List.mem_cons_self a rest)
        · rcases List.mem_append.mp hcarest with hrep | hmem
          · simp only [List.mem_replicate] at hrep
            rw [hrep.2]
            decide
          · exact h c (List.mem_cons_of_mem a hmem)
      · rcases List.mem_append.mp hc with hrep | hmem
        · simp only [List.mem_replicate] at hrep
          rw [hrep.2]
          decide
        · exact h c hmem

/-- A cell is clean when, if it holds a string, that string is nonempty,
is not the literal "nan", and is not whitespace-only.  Every cell that
went through `cleanCell` is clean. -/
def CleanCellP (c : Cell) : Prop :=
  ∀ s, c = some s →
    s ≠ "" ∧ s ≠ "nan" ∧ ∃ ch, ch ∈ s.data ∧ isSpace ch = false

theorem cleanP_none : CleanCellP none := by
  intro s h
  exact absurd h (by simp)

theorem cleanCell_cleanP (c : Cell) : CleanCellP (cleanCell c) := by
  intro s2 h
  simp only [cleanCell] at h
  by_cases h1 : pyStrip (astypeStr c) = ""
  · simp [h1] at h
  · by_cases h2 : pyStrip (astypeStr c) = "nan"
    · simp [h1, h2] at h
    · simp only [h1, h2, if_false, Option.some.injEq] at h
      subst h
      refine ⟨h1, h2, ?_⟩
      have hne : stripList (astypeStr c).data ≠ [] := by
        intro hnil
        exact h1 (by simp [pyStrip, hnil])
      obtain ⟨ch, hch, hsp⟩ := stripList_has_nonspace hne
      exact ⟨ch, by simpa [pyStrip] using hch, hsp⟩

/-- What `fillnaCell` guarantees on a clean cell: the exported string is
never empty, never "nan" and never whitespace-only. -/
theorem fillna_of_cleanP {c : Cell} (h : CleanCellP c) :
    fillnaCell c ≠ "" ∧ fillnaCell c ≠ "nan" ∧
      ∃ ch, ch ∈ (fillnaCell c).data ∧ isSpace ch = false := by
  cases c with
  | none =>
    refine ⟨by decide, by decide, 'N', by decide, by decide⟩
  | some s => exact h s rfl

/-- Unfolding of a successful `transform`. -/
theorem transform_ok_spec {t t2 : Tables} (h : transform t = Except.ok t2) :
    ∃ ms, mapExcept backfillTypeCode t.materials = Except.ok ms ∧
      t2.materials = ms.map cleanMaterialsRow ∧
      t2.plants = t.plants.map plantsPipeline ∧
      t2.storage = t.storage.map storagePipeline ∧
      t2.suppliers = t.suppliers.map cleanSuppliersRow ∧
      t2.supplier_names = t.supplier_names.map cleanSupplierNamesRow ∧
      t2.manufacturer_names = t.manufacturer_names.map cleanManufacturerNamesRow := by
  unfold transform at h
  cases hm : mapExcept backfillTypeCode t.materials with
  | error e => rw [hm] at h; exact absurd h (by simp)
  | ok ms =>
    rw [hm] at h
    cases h
    exact ⟨ms, rfl, rfl, rfl, rfl, rfl, rfl, rfl⟩

/-! ### Cleanliness of whole rows -/

def CleanRowM (m : MaterialsRow) : Prop :=
  CleanCellP m.MaterialReference ∧ CleanCellP m.ManufacturerID ∧
    CleanCellP m.TypeCode ∧ CleanCellP m.ShortText ∧
    CleanCellP m.ArticleNumber

def CleanRowMN (n : ManufacturerNamesRow) : Prop :=
  CleanCellP n.ManufacturerID ∧ CleanCellP n.ManufacturerName

def CleanRowPl (p : PlantsRow) : Prop :=
  CleanCellP p.MaterialReference ∧ CleanCellP p.Plant ∧
    CleanCellP p.Disposition ∧ CleanCellP p.ReporderPoint

def CleanRowSu (s : SuppliersRow) : Prop :=
  CleanCellP s.MaterialReference ∧ CleanCellP s.SupplierID ∧
    CleanCellP s.SupplierArticleNumber

def CleanRowSN (n : SupplierNamesRow) : Prop :=
  CleanCellP n.SupplierID ∧ CleanCellP n.SupplierName

def CleanRowSt (s : StorageRow) : Prop :=
  CleanCellP s.MaterialReference ∧ CleanCellP s.Plant ∧
    CleanCellP s.StorageLocation ∧ CleanCellP s.StorageBin ∧
    CleanCellP s.DeletedStorageLevel

def CleanRow1 (g : Step1Row) : Prop :=
  CleanCellP g.MaterialReference ∧ CleanCellP g.TypeCode ∧
    CleanCellP g.ShortText ∧ CleanCellP g.ArticleNumber ∧
    CleanCellP g.ManufacturerName

def CleanRow2 (g : Step2Row) : Prop :=
  CleanCellP g.MaterialReference ∧ CleanCellP g.TypeCode ∧
    CleanCellP g.ShortText ∧ CleanCellP g.ArticleNumber ∧
    CleanCellP g.ManufacturerName ∧ CleanCellP g.Plant ∧
    CleanCellP g.Disposition ∧ CleanCellP g.ReporderPoint

def CleanRow3 (g : Step3Row) : Prop :=
  CleanCellP g.MaterialReference ∧ CleanCellP g.TypeCode ∧
    CleanCellP g.ShortText ∧ CleanCellP g.ArticleNumber ∧
    CleanCellP g.ManufacturerName ∧ CleanCellP g.Plant ∧
    CleanCellP g.Disposition ∧ CleanCellP g.ReporderPoint ∧
    CleanCellP g.SupplierID ∧ CleanCellP g.SupplierArticleNumber

def CleanRow4 (g : Step4Row) : Prop :=
  CleanCellP g.MaterialReference ∧ CleanCellP g.TypeCode ∧
    CleanCellP g.ShortText ∧ CleanCellP g.ArticleNumber ∧
    CleanCellP g.ManufacturerName ∧ CleanCellP g.Plant ∧
    CleanCellP g.Disposition ∧ CleanCellP g.ReporderPoint ∧
    CleanCellP g.SupplierArticleNumber ∧ CleanCellP g.SupplierName

def CleanRow5 (g : Step5Row) : Prop :=
  CleanCellP g.MaterialReference ∧ CleanCellP g.TypeCode ∧
    CleanCellP g.ShortText ∧ CleanCellP g.ArticleNumber ∧
    CleanCellP g.ManufacturerName ∧ CleanCellP g.Plant ∧
    CleanCellP g.Disposition ∧ CleanCellP g.ReporderPoint ∧
    CleanCellP g.SupplierArticleNumber ∧ CleanCellP g.SupplierName ∧
    CleanCellP g.StorageLocation ∧ CleanCellP g.StorageBin ∧
    CleanCellP g.DeletedStorageLevel

theorem cleanMaterialsRow_clean (m : MaterialsRow) :
    CleanRowM (cleanMaterialsRow m) :=
  ⟨cleanCell_cleanP _, cleanCell_cleanP _, cleanCell_cleanP _,
   cleanCell_cleanP _, cleanCell_cleanP _⟩

theorem cleanManufacturerNamesRow_clean (n : ManufacturerNamesRow) :
    CleanRowMN (cleanManufacturerNamesRow n) :=
  ⟨cleanCell_cleanP _, cleanCell_cleanP _⟩

theorem plantsPipeline_clean (p : PlantsRow) :
    CleanRowPl (plantsPipeline p) :=
  ⟨cleanCell_cleanP _, cleanCell_cleanP _, cleanCell_cleanP _,
   cleanCell_cleanP _⟩

theorem cleanSuppliersRow_clean (s : SuppliersRow) :
    CleanRowSu (cleanSuppliersRow s) :=
  ⟨cleanCell_cleanP _, cleanCell_cleanP _, cleanCell_cleanP _⟩

theorem cleanSupplierNamesRow_clean (n : SupplierNamesRow) :
    CleanRowSN (cleanSupplierNamesRow n) :=
  ⟨cleanCell_cleanP _, cleanCell_cleanP _⟩

theorem storagePipeline_clean (s : StorageRow) :
    CleanRowSt (storagePipeline s) :=
  ⟨cleanCell_cleanP _, cleanCell_cleanP _, cleanCell_cleanP _,
   cleanCell_cleanP _, cleanCell_cleanP _⟩

/-- After cleaning, every row produced by the five-join chain is made of
clean cells and nulls: the joins only copy cell values or fill nulls. -/
theorem aggregate_clean (t : Tables)
    (hM : ∀ m ∈ t.materials, CleanRowM m)
    (hPl : ∀ p ∈ t.plants, CleanRowPl p)
    (hSt : ∀ s ∈ t.storage, CleanRowSt s)
    (hSu : ∀ s ∈ t.suppliers, CleanRowSu s)
    (hSN : ∀ n ∈ t.supplier_names, CleanRowSN n)
    (hMN : ∀ n ∈ t.manufacturer_names, CleanRowMN n) :
    ∀ g ∈ aggregate t, CleanRow5 g := by
  have h1 : ∀ g ∈ agg1 t, CleanRow1 g := by
    apply joinRows_forall
    · intro a ha
      obtain ⟨c1, c2, c3, c4, c5⟩ := hM a ha
      exact ⟨c1, c3, c4, c5, cleanP_none⟩
    · intro a ha b hb
      obtain ⟨c1, c2, c3, c4, c5⟩ := hM a ha
      obtain ⟨d1, d2⟩ := hMN b (List.mem_filter.mp hb).1
      exact ⟨c1, c3, c4, c5, d2⟩
  have h2 : ∀ g ∈ agg2 t, CleanRow2 g := by
    apply joinRows_forall
    · intro a ha
      obtain ⟨c1, c2, c3, c4, c5⟩ := h1 a ha
      exact ⟨c1, c2, c3, c4, c5, cleanP_none, cleanP_none, cleanP_none⟩
    · intro a ha b hb
      obtain ⟨c1, c2, c3, c4, c5⟩ := h1 a ha
      obtain ⟨d1, d2, d3, d4⟩ := hPl b (List.mem_filter.mp hb).1
      exact ⟨c1, c2, c3, c4, c5, d2, d3, d4⟩
  have h3 : ∀ g ∈ agg3 t, CleanRow3 g := by
    apply joinRows_forall
    · intro a ha
      obtain ⟨c1, c2, c3, c4, c5, c6, c7, c8⟩ := h2 a ha
      exact ⟨c1, c2, c3, c4, c5, c6, c7, c8, cleanP_none, cleanP_none⟩
    · intro a ha b hb
      obtain ⟨c1, c2, c3, c4, c5, c6, c7, c8⟩ := h2 a ha
      obtain ⟨d1, d2, d3⟩ := hSu b (List.mem_filter.mp hb).1
      exact ⟨c1, c2, c3, c4, c5, c6, c7, c8, d2, d3⟩
  have h4 : ∀ g ∈ agg4 t, CleanRow4 g := by
    apply joinRows_forall
    · intro a ha
      obtain ⟨c1, c2, c3, c4, c5, c6, c7, c8, c9, c10⟩ := h3 a ha
      exact ⟨c1, c2, c3, c4, c5, c6, c7, c8, c10, cleanP_none⟩
    · intro a ha b hb
      obtain ⟨c1, c2, c3, c4, c5, c6, c7, c8, c9, c10⟩ := h3 a ha
      obtain ⟨d1, d2⟩ := hSN b (List.mem_filter.mp hb).1
      exact ⟨c1, c2, c3, c4, c5, c6, c7, c8, c10, d2⟩
  apply joinRows_forall
  · intro a ha
    obtain ⟨c1, c2, c3, c4, c5, c6, c7, c8, c9, c10⟩ := h4 a ha
    exact ⟨c1, c2, c3, c4, c5, c6, c7, c8, c9, c10,
      cleanP_none, cleanP_none, cleanP_none⟩
  · intro a ha b hb
    obtain ⟨c1, c2, c3, c4, c5, c6, c7, c8, c9, c10⟩ := h4 a ha
    obtain ⟨d1, d2, d3, d4, d5⟩ := hSt b (List.mem_filter.mp hb).1
    exact ⟨c1, c2, c3, c4, c5, c6, c7, c8, c9, c10, d3, d4, d5⟩

/-- Where the output Plant column comes from: steps 3-5 copy it from the
accumulated left side, step 2 introduces it from the plants table (or as
null when a material matches no plants row). -/
theorem aggregate_plant_provenance (t : Tables) {g : Step5Row}
    (hg : g ∈ aggregate t) :
    g.Plant = none ∨ ∃ p, p ∈ t.plants ∧ g.Plant = p.Plant := by
  unfold aggregate step5 at hg
  obtain ⟨a4, ha4, hc5⟩ := joinRows_mem hg
  have hp5 : g.Plant = a4.Plant := by
    rcases hc5 with h | ⟨b, hb, h⟩ <;> rw [h] <;> rfl
  unfold agg4 step4 at ha4
  obtain ⟨a3, ha3, hc4⟩ := joinRows_mem ha4
  have hp4 : a4.Plant = a3.Plant := by
    rcases hc4 with h | ⟨b, hb, h⟩ <;> rw [h] <;> rfl
  unfold agg3 step3 at ha3
  obtain ⟨a2, ha2, hc3⟩ := joinRows_mem ha3
  have hp3 : a3.Plant = a2.Plant := by
    rcases hc3 with h | ⟨b, hb, h⟩ <;> rw [h] <;> rfl
  unfold agg2 step2 at ha2
  obtain ⟨a1, ha1, hc2⟩ := joinRows_mem ha2
  rcases hc2 with h | ⟨p, hp, h⟩
  · left
    rw [hp5, hp4, hp3, h]
    rfl
  · right
    refine ⟨p, (List.mem_filter.mp hp).1, ?_⟩
    rw [hp5, hp4, hp3, h]
    rfl

/-- Decidable form of the amended Plant precondition: a Plant cell of the
plants input is null, or holds a whitespace-free string of at most 4
characters. -/
def plantCellOk (c : Cell) : Bool :=
  match c with
  | none => true
  | some s => s.data.all (fun ch => !isSpace ch) && decide (s.length ≤ 4)

/-- `cleanCell` keeps a string value that is already stripped, nonempty
and distinct from "nan". -/
theorem cleanCell_some_fixed {y : String} (h1 : pyStrip y = y)
    (h2 : y ≠ "") (h3 : y ≠ "nan") : cleanCell (some y) = some y := by
  unfold cleanCell
  simp only [astypeStr, h1]
  rw [if_neg h2, if_neg h3]

/-- Under the amended precondition, the transformed plants table holds
Plant strings of exactly 4 characters. -/
theorem plantsPipeline_length4 {p : PlantsRow}
    (h : plantCellOk p.Plant = true) :
    ∃ s, (plantsPipeline p).Plant = some s ∧ s.length = 4 := by
  have hx : (∀ ch ∈ (astypeStr p.Plant).data, isSpace ch = false) ∧
      (astypeStr p.Plant).length ≤ 4 := by
    cases hc : p.Plant with
    | none =>
      constructor
      · intro ch hch
        simp only [astypeStr] at hch
        fin_cases hch <;> decide
      · decide
    | some s =>
      rw [hc] at h
      simp only [plantCellOk, Bool.and_eq_true, List.all_eq_true,
        decide_eq_true_eq] at h
      refine ⟨?_, h.2⟩
      intro ch hch
      simpa using h.1 ch hch
  set z := pyZfillList (astypeStr p.Plant).data 4 with hz
  have hzlen : z.length = 4 := pyZfillList_length hx.2
  have hzns : ∀ c ∈ z, isSpace c = false := pyZfillList_no_space hx.1
  have hstrip : pyStrip (String.mk z) = String.mk z := by
    simp [pyStrip, stripList_eq_self_of_no_space hzns]
  have hlen4 : (String.mk z).length = 4 := hzlen
  have hne1 : String.mk z ≠ "" := by
    intro he
    rw [he] at hlen4
    exact absurd hlen4 (by decide)
  have hne2 : String.mk z ≠ "nan" := by
    intro he
    rw [he] at hlen4
    exact absurd hlen4 (by decide)
  refine ⟨String.mk z, ?_, hlen4⟩
  have hplant : (plantsPipeline p).Plant =
      cleanCell (some (pyZfill (astypeStr p.Plant) 4)) := rfl
  have hy : pyZfill (astypeStr p.Plant) 4 = String.mk z := rfl
  rw [hplant, hy]
  exact cleanCell_some_fixed hstrip hne1 hne2

/-! ### Concrete inputs used by the claim theorems -/

/-- The end-to-end scenario of spec section 8: one material (TypeCode
null), a matching manufacturer name, all other tables empty. -/
def scenarioTables : Tables :=
  { materials := [⟨some "M1", some "MF1", none, none, none⟩]
    plants := []
    storage := []
    suppliers := []
    supplier_names := []
    manufacturer_names := [⟨some "MF1", some "Acme"⟩] }

/-- The transformed tables for `scenarioTables`. -/
def scenarioT2 : Tables :=
  { materials := [⟨some "M1", some "MF1", some "TC00000000M1", none, none⟩]
    plants := []
    storage := []
    suppliers := []
    supplier_names := []
    manufacturer_names := [⟨some "MF1", some "Acme"⟩] }

/-- The single output row the pipeline produces for `scenarioTables`. -/
def scenarioRow : List (String × String) :=
  [("MaterialReference", "M1"), ("ManufacturerName", "Acme"),
   ("ArticleNumber", "N/A"), ("TypeCode", "TC00000000M1"),
   ("ShortText", "N/A"), ("Plant", "N/A"), ("Disposition", "N/A"),
   ("ReporderPoint", "N/A"), ("SupplierName", "N/A"),
   ("SupplierArticleNumber", "N/A"), ("StorageLocation", "N/A"),
   ("StorageBin", "N/A"), ("DeletedStorageLevel", "N/A")]

/-! ### C1 -/

/-- C1, counterexample: on the end-to-end scenario the pipeline produces
one row whose TypeCode is "TC00000000M1" (the backfill appends the last
TWO characters of MaterialReference "M1"), not "TC000000001" as the
claim states. -/
theorem c1_counterexample :
    exportTable scenarioTables = Except.ok [scenarioRow] ∧
    scenarioRow.lookup "TypeCode" = some "TC00000000M1" ∧
    (some "TC00000000M1" : Option String) ≠ some "TC000000001" :=
  ⟨by decide, by decide, by decide⟩

/-- C1 (amended): on the end-to-end scenario (Materials has one row with
MaterialReference "M1", ManufacturerID "MF1", null TypeCode;
ManufacturerNames maps "MF1" to "Acme"; Plants, Suppliers and Storage
empty) the pipeline produces exactly one row with ManufacturerName
"Acme", TypeCode "TC00000000M1" (backfilled from the last two characters
of "M1"), and every Plant-, Supplier- and Storage-derived column is the
string "N/A". -/
theorem c1_end_to_end_scenario :
    exportTable scenarioTables = Except.ok [scenarioRow] ∧
    scenarioRow.lookup "ManufacturerName" = some "Acme" ∧
    scenarioRow.lookup "TypeCode" = some "TC00000000M1" ∧
    scenarioRow.lookup "Plant" = some "N/A" ∧
    scenarioRow.lookup "Disposition" = some "N/A" ∧
    scenarioRow.lookup "ReporderPoint" = some "N/A" ∧
    scenarioRow.lookup "SupplierName" = some "N/A" ∧
    scenarioRow.lookup "SupplierArticleNumber" = some "N/A" ∧
    scenarioRow.lookup "StorageLocation" = some "N/A" ∧
    scenarioRow.lookup "StorageBin" = some "N/A" ∧
    scenarioRow.lookup "DeletedStorageLevel" = some "N/A" := by
  refine ⟨by decide, ?_, ?_, ?_, ?_, ?_, ?_, ?_, ?_, ?_, ?_⟩ <;> decide

/-! ### C2 -/

/-- Input for the C2 counterexample: a plants row whose Plant value
"12345" is longer than 4 characters. -/
def c2BadT : Tables :=
  { materials := [⟨some "M1", some "MF1", some "T1", some "S1", some "A1"⟩]
    plants := [⟨some "M1", some "12345", some "D1", some "R1"⟩]
    storage := []
    suppliers := []
    supplier_names := []
    manufacturer_names := [] }

/-- The output row for `c2BadT`. -/
def c2BadRow : List (String × String) :=
  [("MaterialReference", "M1"), ("ManufacturerName", "N/A"),
   ("ArticleNumber", "A1"), ("TypeCode", "T1"), ("ShortText", "S1"),
   ("Plant", "12345"), ("Disposition", "D1"), ("ReporderPoint", "R1"),
   ("SupplierName", "N/A"), ("SupplierArticleNumber", "N/A"),
   ("StorageLocation", "N/A"), ("StorageBin", "N/A"),
   ("DeletedStorageLevel", "N/A")]

/-- C2, counterexample: `zfill(4)` pads but never truncates, so a Plant
value of five characters reaches the output as a present (non-"N/A")
string of length 5, refuting the claim that every present Plant value
has exactly 4 characters. -/
theorem c2_counterexample :
    exportTable c2BadT = Except.ok [c2BadRow] ∧
    c2BadRow.lookup "Plant" = some "12345" ∧
    ("12345" : String) ≠ "N/A" ∧ "12345".length ≠ 4 :=
  ⟨by decide, by decide, by decide, by decide⟩

/-- C2 (amended): provided every non-null Plant cell of the Plants input
holds a whitespace-free string of at most 4 characters, every present
(non-"N/A") Plant value of the output has exactly 4 characters: the
column is coerced to string and left-padded with zeros to length 4, and
padding neither truncates longer strings nor survives the later
whitespace trim unscathed, which is what the precondition rules out. -/
theorem c2_plant_length_amended (t t2 : Tables)
    (rows : List (List (String × String)))
    (ht : transform t = Except.ok t2)
    (hp : ∀ p ∈ t.plants, plantCellOk p.Plant = true)
    (he : exportTable t = Except.ok rows) :
    ∀ er ∈ rows, ∀ v, er.lookup "Plant" = some v → v ≠ "N/A" →
      v.length = 4 := by
  have hrows : rows = (aggregate t2).map exportRow := by
    unfold exportTable at he
    rw [ht] at he
    injection he with h2
    exact h2.symm
  subst hrows
  intro er her v hv hna
  obtain ⟨g, hgmem, hger⟩ := List.mem_map.mp her
  subst hger
  have hlv : (exportRow g).lookup "Plant" = some (fillnaCell g.Plant) := by
    simp [exportRow, List.lookup]
  rw [hlv] at hv
  injection hv with hv2
  rcases aggregate_plant_provenance t2 hgmem with hnone | ⟨p2, hp2, hgp⟩
  · exact absurd (by rw [← hv2, hnone]; rfl) hna
  · obtain ⟨ms, hms, hm, hpl, hst, hsu, hsn, hmn⟩ := transform_ok_spec ht
    rw [hpl] at hp2
    obtain ⟨p0, hp0, hp2eq⟩ := List.mem_map.mp hp2
    obtain ⟨s4, hs4, hs4len⟩ := plantsPipeline_length4 (hp p0 hp0)
    rw [← hp2eq, hs4] at hgp
    rw [hgp] at hv2
    have hvs : v = s4 := by rw [← hv2]; rfl
    rw [hvs]
    exact hs4len

/-- Input for the C2 witness: a plants row with Plant "7". -/
def c2GoodT : Tables :=
  { materials := [⟨some "M1", some "MF1", some "T1", some "S1", some "A1"⟩]
    plants := [⟨some "M1", some "7", some "D1", some "R1"⟩]
    storage := []
    suppliers := []
    supplier_names := []
    manufacturer_names := [] }

/-- Transformed tables for `c2GoodT` ("7" padded to "0007"). -/
def c2GoodT2 : Tables :=
  { materials := [⟨some "M1", some "MF1", some "T1", some "S1", some "A1"⟩]
    plants := [⟨some "M1", some "0007", some "D1", some "R1"⟩]
    storage := []
    suppliers := []
    supplier_names := []
    manufacturer_names := [] }

/-- The output row for `c2GoodT`. -/
def c2GoodRow : List (String × String) :=
  [("MaterialReference", "M1"), ("ManufacturerName", "N/A"),
   ("ArticleNumber", "A1"), ("TypeCode", "T1"), ("ShortText", "S1"),
   ("Plant", "0007"), ("Disposition", "D1"), ("ReporderPoint", "R1"),
   ("SupplierName", "N/A"), ("SupplierArticleNumber", "N/A"),
   ("StorageLocation", "N/A"), ("StorageBin", "N/A"),
   ("DeletedStorageLevel", "N/A")]

theorem c2_plant_length_witness : ("0007" : String).length = 4 :=
  c2_plant_length_amended c2GoodT c2GoodT2 [c2GoodRow] (by decide)
    (by decide) (by decide) c2GoodRow (by decide) "0007" (by decide)
    (by decide)

/-! ### C3 -/

/-- C3: nulls surviving to the export are rendered "N/A", and no cell of
the export holds another null representation: no cell is the empty
string, the literal string "nan", or whitespace-only (every exported
string contains a non-whitespace character). -/
theorem c3_no_null_representation (t : Tables)
    (rows : List (List (String × String)))
    (he : exportTable t = Except.ok rows) :
    fillnaCell none = "N/A" ∧
    ∀ er ∈ rows, ∀ pr ∈ er, pr.2 ≠ "" ∧ pr.2 ≠ "nan" ∧
      ∃ ch, ch ∈ pr.2.data ∧ isSpace ch = false := by
  refine ⟨rfl, ?_⟩
  unfold exportTable at he
  cases ht : transform t with
  | error e =>
    rw [ht] at he
    exact absurd he (by simp)
  | ok t2 =>
    rw [ht] at he
    injection he with h2
    obtain ⟨ms, hms, hm, hpl, hst, hsu, hsn, hmn⟩ := transform_ok_spec ht
    have hM : ∀ m ∈ t2.materials, CleanRowM m := by
      rw [hm]
      intro x hx
      obtain ⟨m0, _, hme⟩ := List.mem_map.mp hx
      rw [← hme]
      exact cleanMaterialsRow_clean m0
    have hPl : ∀ p ∈ t2.plants, CleanRowPl p := by
      rw [hpl]
      intro x hx
      obtain ⟨p0, _, hpe⟩ := List.mem_map.mp hx
      rw [← hpe]
      exact plantsPipeline_clean p0
    have hSt : ∀ s ∈ t2.storage, CleanRowSt s := by
      rw [hst]
      intro x hx
      obtain ⟨s0, _, hse⟩ := List.mem_map.mp hx
      rw [← hse]
      exact storagePipeline_clean s0
    have hSu : ∀ s ∈ t2.suppliers, CleanRowSu s := by
      rw [hsu]
      intro x hx
      obtain ⟨s0, _, hse⟩ := List.mem_map.mp hx
      rw [← hse]
      exact cleanSuppliersRow_clean s0
    have hSN : ∀ n ∈ t2.supplier_names, CleanRowSN n := by
      rw [hsn]
      intro x hx
      obtain ⟨n0, _, hne⟩ := List.mem_map.mp hx
      rw [← hne]
      exact cleanSupplierNamesRow_clean n0
    have hMN : ∀ n ∈ t2.manufacturer_names, CleanRowMN n := by
      rw [hmn]
      intro x hx
      obtain ⟨n0, _, hne⟩ := List.mem_map.mp hx
      rw [← hne]
      exact cleanManufacturerNamesRow_clean n0
    have hcl := aggregate_clean t2 hM hPl hSt hSu hSN hMN
    rw [← h2]
    intro er her pr hpr
    obtain ⟨g, hgmem, hger⟩ := List.mem_map.mp her
    subst hger
    obtain ⟨k1, k2, k3, k4, k5, k6, k7, k8, k9, k10, k11, k12, k13⟩ :=
      hcl g hgmem
    simp only [exportRow, List.mem_cons, List.not_mem_nil, or_false] at hpr
    rcases hpr with h|h|h|h|h|h|h|h|h|h|h|h|h <;> subst h
    exacts [fillna_of_cleanP k1, fillna_of_cleanP k5, fillna_of_cleanP k4,
      fillna_of_cleanP k2, fillna_of_cleanP k3, fillna_of_cleanP k6,
      fillna_of_cleanP k7, fillna_of_cleanP k8, fillna_of_cleanP k10,
      fillna_of_cleanP k9, fillna_of_cleanP k11, fillna_of_cleanP k12,
      fillna_of_cleanP k13]

theorem c3_witness :
    ("ManufacturerName", "Acme").2 ≠ "" ∧
    ("ManufacturerName", "Acme").2 ≠ "nan" ∧
    ∃ ch, ch ∈ ("ManufacturerName", "Acme").2.data ∧ isSpace ch = false :=
  (c3_no_null_representation scenarioTables [scenarioRow] (by decide)).2
    scenarioRow (by decide) ("ManufacturerName", "Acme") (by decide)

/-! ### C4 -/

/-- C4: for a Materials row with missing TypeCode and a string
MaterialReference, the backfill sets TypeCode to "TC00000000" followed
by the last two characters of MaterialReference (`pyLastTwo`, Python
`[-2:]`); a row whose TypeCode is present is kept unchanged. -/
theorem c4_typecode_backfill (m : MaterialsRow) (ref tc : String) :
    (m.TypeCode = some tc → backfillTypeCode m = Except.ok m) ∧
    (m.TypeCode = none → m.MaterialReference = some ref →
      backfillTypeCode m =
        Except.ok { m with TypeCode := some ("TC00000000" ++ pyLastTwo ref) }) := by
  constructor
  · intro h
    simp [backfillTypeCode, h]
  · intro h1 h2
    simp [backfillTypeCode, h1, h2]

/-- The worked example of the claim. -/
def c4Row : MaterialsRow := ⟨some "ABC123XY", some "MF", none, none, none⟩

theorem c4_witness :
    c4Row.TypeCode = none ∧
    c4Row.MaterialReference = some "ABC123XY" ∧
    backfillTypeCode c4Row =
      Except.ok { c4Row with TypeCode := some ("TC00000000" ++ pyLastTwo "ABC123XY") } ∧
    "TC00000000" ++ pyLastTwo "ABC123XY" = "TC00000000XY" :=
  ⟨rfl, rfl, (c4_typecode_backfill c4Row "ABC123XY" "T").2 rfl rfl, by decide⟩

/-! ### C5 -/

/-- C5: a Storage row whose DeletedStorageLevel is exactly one space
becomes "ACTIVE" in the transformed storage table: the space-to-ACTIVE
substitution (line 59) runs before the trim/null-collapse cleaning, so
the value is neither blanked nor collapsed to null, and the storage join
and the export render it as "ACTIVE", never "N/A" and never blank. -/
theorem c5_deleted_storage_active (s : StorageRow) (a : Step4Row)
    (h : s.DeletedStorageLevel = some " ") :
    (storagePipeline s).DeletedStorageLevel = some "ACTIVE" ∧
    (combine5 a (storagePipeline s)).DeletedStorageLevel = some "ACTIVE" ∧
    fillnaCell ((combine5 a (storagePipeline s)).DeletedStorageLevel) =
      "ACTIVE" ∧
    ("ACTIVE" : String) ≠ "N/A" ∧ ("ACTIVE" : String) ≠ "" := by
  have h1 : (storagePipeline s).DeletedStorageLevel =
      cleanCell (if s.DeletedStorageLevel = some " " then some "ACTIVE"
        else s.DeletedStorageLevel) := rfl
  have h2 : (storagePipeline s).DeletedStorageLevel = some "ACTIVE" := by
    rw [h1, if_pos h]
    decide
  refine ⟨h2, h2, ?_, by decide, by decide⟩
  have h3 : (combine5 a (storagePipeline s)).DeletedStorageLevel =
      (storagePipeline s).DeletedStorageLevel := rfl
  rw [h3, h2]
  rfl

/-- Concrete storage row for the C5 witness. -/
def c5Row : StorageRow := ⟨some "M1", some "0001", some "L1", some "B1", some " "⟩

/-- Concrete accumulated row for the C5 witness. -/
def c5Step4 : Step4Row :=
  ⟨some "M1", some "T", some "S", some "A", some "MN", some "0001",
   some "D", some "R", some "SA", some "SN"⟩

theorem c5_witness :
    c5Row.DeletedStorageLevel = some " " ∧
    (storagePipeline c5Row).DeletedStorageLevel = some "ACTIVE" ∧
    fillnaCell ((combine5 c5Step4 (storagePipeline c5Row)).DeletedStorageLevel) =
      "ACTIVE" := by
  obtain ⟨a1, a2, a3, _, _⟩ := c5_deleted_storage_active c5Row c5Step4 rfl
  exact ⟨rfl, a1, a3⟩

/-! ### C6 -/

/-- C6: the output row count is at least the Materials input row count
(every left join keeps every accumulated left row), and it equals the
Materials row count exactly when each of the five joins matches at most
one right-side row per left row. -/
theorem c6_row_counts (t t2 : Tables) (rows : List (List (String × String)))
    (ht : transform t = Except.ok t2)
    (he : exportTable t = Except.ok rows) :
    t.materials.length ≤ rows.length ∧
    (rows.length = t.materials.length ↔
      ((∀ a ∈ t2.materials, (matches1 t2.manufacturer_names a).length ≤ 1) ∧
       (∀ a ∈ agg1 t2, (matches2 t2.plants a).length ≤ 1) ∧
       (∀ a ∈ agg2 t2, (matches3 t2.suppliers a).length ≤ 1) ∧
       (∀ a ∈ agg3 t2, (matches4 t2.supplier_names a).length ≤ 1) ∧
       (∀ a ∈ agg4 t2, (matches5 t2.storage a).length ≤ 1))) := by
  have hmat : t2.materials.length = t.materials.length := by
    obtain ⟨ms, hms, hm, _, _, _, _, _⟩ := transform_ok_spec ht
    rw [hm, List.length_map]
    exact mapExcept_ok_length hms
  have hrowsA : rows = (aggregate t2).map exportRow := by
    unfold exportTable at he
    rw [ht] at he
    injection he with h2
    exact h2.symm
  have hrl : rows.length = (aggregate t2).length := by
    rw [hrowsA, List.length_map]
  have g1 : t2.materials.length ≤ (agg1 t2).length :=
    joinRows_length_ge _ _ _ _
  have g2 : (agg1 t2).length ≤ (agg2 t2).length :=
    joinRows_length_ge _ _ _ _
  have g3 : (agg2 t2).length ≤ (agg3 t2).length :=
    joinRows_length_ge _ _ _ _
  have g4 : (agg3 t2).length ≤ (agg4 t2).length :=
    joinRows_length_ge _ _ _ _
  have g5 : (agg4 t2).length ≤ (aggregate t2).length :=
    joinRows_length_ge _ _ _ _
  refine ⟨by omega, ?_, ?_⟩
  · intro heq
    have e1 : (agg1 t2).length = t2.materials.length := by omega
    have e2 : (agg2 t2).length = (agg1 t2).length := by omega
    have e3 : (agg3 t2).length = (agg2 t2).length := by omega
    have e4 : (agg4 t2).length = (agg3 t2).length := by omega
    have e5 : (aggregate t2).length = (agg4 t2).length := by omega
    exact ⟨joinRows_uniq_of_length_eq e1, joinRows_uniq_of_length_eq e2,
      joinRows_uniq_of_length_eq e3, joinRows_uniq_of_length_eq e4,
      joinRows_uniq_of_length_eq e5⟩
  · rintro ⟨u1, u2, u3, u4, u5⟩
    have e1 : (agg1 t2).length = t2.materials.length :=
      joinRows_length_eq u1
    have e2 : (agg2 t2).length = (agg1 t2).length :=
      joinRows_length_eq u2
    have e3 : (agg3 t2).length = (agg2 t2).length :=
      joinRows_length_eq u3
    have e4 : (agg4 t2).length = (agg3 t2).length :=
      joinRows_length_eq u4
    have e5 : (aggregate t2).length = (agg4 t2).length :=
      joinRows_length_eq u5
    omega

theorem c6_witness :
    scenarioTables.materials.length ≤
      ([scenarioRow] : List (List (String × String))).length :=
  (c6_row_counts scenarioTables scenarioT2 [scenarioRow] (by decide)
    (by decide)).1

/-! ### C7 -/

/-- C7: if any of the six spreadsheet loads fails, the run ends in the
load-failure branch (lines 43-50): the error is logged and echoed, the
process exits with status 1, and no output is produced — the pipeline
never reaches the transformation stages and no partly-loaded run
continues. -/
theorem c7_load_failure (L : Loads) (e : String)
    (h : L.materials = Except.error e ∨ L.plants = Except.error e ∨
         L.storage = Except.error e ∨ L.suppliers = Except.error e ∨
         L.supplier_names = Except.error e ∨
         L.manufacturer_names = Except.error e) :
    ∃ msg, run L = RunResult.loadFailure msg ∧
      (run L).exitCode = 1 ∧ (run L).outputWritten = false ∧
      (run L).errorLogged = true := by
  have hrun : ∃ msg, run L = RunResult.loadFailure msg := by
    unfold run
    cases hm : L.materials with
    | error em => exact ⟨em, rfl⟩
    | ok m =>
      cases hpl : L.plants with
      | error ep => exact ⟨ep, rfl⟩
      | ok p =>
        cases hst : L.storage with
        | error es => exact ⟨es, rfl⟩
        | ok st =>
          cases hsu : L.suppliers with
          | error esu => exact ⟨esu, rfl⟩
          | ok su =>
            cases hsn : L.supplier_names with
            | error esn => exact ⟨esn, rfl⟩
            | ok sn =>
              cases hmn : L.manufacturer_names with
              | error emn => exact ⟨emn, rfl⟩
              | ok mn =>
                exfalso
                rcases h with h|h|h|h|h|h
                · rw [h] at hm
                  exact absurd hm (by simp)
                · rw [h] at hpl
                  exact absurd hpl (by simp)
                · rw [h] at hst
                  exact absurd hst (by simp)
                · rw [h] at hsu
                  exact absurd hsu (by simp)
                · rw [h] at hsn
                  exact absurd hsn (by simp)
                · rw [h] at hmn
                  exact absurd hmn (by simp)
  obtain ⟨msg, hmsg⟩ := hrun
  exact ⟨msg, hmsg, by rw [hmsg]; rfl, by rw [hmsg]; rfl, by rw [hmsg]; rfl⟩

/-- Loads in which materials.xlsx is missing. -/
def c7Loads : Loads :=
  { materials := Except.error "File not found: materials.xlsx"
    plants := Except.ok []
    storage := Except.ok []
    suppliers := Except.ok []
    supplier_names := Except.ok []
    manufacturer_names := Except.ok [] }

theorem c7_witness :
    (run c7Loads).exitCode = 1 ∧ (run c7Loads).outputWritten = false ∧
    (run c7Loads).errorLogged = true := by
  obtain ⟨msg, h1, h2, h3, h4⟩ :=
    c7_load_failure c7Loads "File not found: materials.xlsx" (Or.inl rfl)
  exact ⟨h2, h3, h4⟩

/-! ### C8 -/

/-- C8: the exported table has exactly the 13 columns of lines 186-200,
in that fixed order, and neither ManufacturerID nor SupplierID (each was
dropped right after its name-lookup join). -/
theorem c8_columns (t : Tables) (rows : List (List (String × String)))
    (he : exportTable t = Except.ok rows) :
    finalColumns.length = 13 ∧
    "ManufacturerID" ∉ finalColumns ∧
    "SupplierID" ∉ finalColumns ∧
    ∀ er ∈ rows, er.map Prod.fst = finalColumns := by
  refine ⟨by decide, by decide, by decide, ?_⟩
  unfold exportTable at he
  cases ht : transform t with
  | error e =>
    rw [ht] at he
    exact absurd he (by simp)
  | ok t2 =>
    rw [ht] at he
    injection he with h2
    rw [← h2]
    intro er her
    obtain ⟨g, _, hger⟩ := List.mem_map.mp her
    rw [← hger]
    rfl

theorem c8_witness : scenarioRow.map Prod.fst = finalColumns :=
  (c8_columns scenarioTables [scenarioRow] (by decide)).2.2.2 scenarioRow
    (by decide)

/-! ### C9 -/

/-- C9: the backfill lambda is total only when rows with missing
TypeCode have a string MaterialReference: on a Materials row with both
TypeCode and MaterialReference missing it subscripts a NaN float and
raises TypeError; the stage has no handler, so the whole run aborts with
a non-zero status, nothing is written, and (unlike a load failure)
nothing is logged by the logger. -/
theorem c9_backfill_unhandled_abort (t : Tables) (m : MaterialsRow)
    (hm : m ∈ t.materials) (h1 : m.TypeCode = none)
    (h2 : m.MaterialReference = none) :
    ∃ e, transform t = Except.error e ∧
      run (okLoads t) = RunResult.unhandled e ∧
      (run (okLoads t)).exitCode = 1 ∧
      (run (okLoads t)).outputWritten = false ∧
      (run (okLoads t)).errorLogged = false := by
  have hfail : ∀ b, backfillTypeCode m ≠ Except.ok b := by
    intro b hb
    simp only [backfillTypeCode, h1, h2] at hb
    exact Except.noConfusion hb
  obtain ⟨e, he⟩ := mapExcept_error_of_mem hm hfail
  have htr : transform t = Except.error e := by
    unfold transform
    rw [he]
  have hshape : run (okLoads t) =
      (match exportTable t with
       | Except.error e2 => RunResult.unhandled e2
       | Except.ok out => RunResult.success out) := rfl
  have hrun : run (okLoads t) = RunResult.unhandled e := by
    rw [hshape]
    unfold exportTable
    rw [htr]
  exact ⟨e, htr, hrun, by rw [hrun]; rfl, by rw [hrun]; rfl, by rw [hrun]; rfl⟩

/-- Materials input whose row has both TypeCode and MaterialReference
missing. -/
def c9T : Tables :=
  { materials := [⟨none, some "MF1", none, none, none⟩]
    plants := []
    storage := []
    suppliers := []
    supplier_names := []
    manufacturer_names := [] }

theorem c9_witness :
    (run (okLoads c9T)).exitCode = 1 ∧
    (run (okLoads c9T)).outputWritten = false ∧
    (run (okLoads c9T)).errorLogged = false := by
  obtain ⟨e, h1, h2, h3, h4, h5⟩ :=
    c9_backfill_unhandled_abort c9T ⟨none, some "MF1", none, none, none⟩
      (by decide) rfl rfl
  exact ⟨h3, h4, h5⟩

/-! ### C10 -/

/-- C10: a missing Plant cell in the Plants or Storage input is turned by
`astype(str)` into the string "nan" and by `zfill(4)` into "0nan"; the
cleaning stage only collapses the exact string "nan", so "0nan" survives
cleaning, is carried by the joins, and is exported as "0nan", not
"N/A". -/
theorem c10_nan_plant (p : PlantsRow) (s : StorageRow) (a : Step1Row)
    (hp : p.Plant = none) (hs : s.Plant = none) :
    (plantsPipeline p).Plant = some "0nan" ∧
    (storagePipeline s).Plant = some "0nan" ∧
    cleanCell (some "0nan") = some "0nan" ∧
    (combine2 a (plantsPipeline p)).Plant = some "0nan" ∧
    fillnaCell (some "0nan") = "0nan" ∧
    ("0nan" : String) ≠ "N/A" := by
  have h1 : (plantsPipeline p).Plant =
      cleanCell (some (pyZfill (astypeStr p.Plant) 4)) := rfl
  rw [hp] at h1
  have h1b : (plantsPipeline p).Plant = some "0nan" := by
    rw [h1]
    decide
  have h2 : (storagePipeline s).Plant =
      cleanCell (some (pyZfill (astypeStr s.Plant) 4)) := rfl
  rw [hs] at h2
  have h2b : (storagePipeline s).Plant = some "0nan" := by
    rw [h2]
    decide
  refine ⟨h1b, h2b, by decide, ?_, by decide, by decide⟩
  have h4 : (combine2 a (plantsPipeline p)).Plant =
      (plantsPipeline p).Plant := rfl
  rw [h4, h1b]

/-- Plants row with a missing Plant cell. -/
def c10P : PlantsRow := ⟨some "M1", none, some "D", some "R"⟩

/-- Storage row with a missing Plant cell. -/
def c10S : StorageRow := ⟨some "M1", none, some "L", some "B", some "X"⟩

/-- Accumulated row for the C10 witness. -/
def c10A : Step1Row := ⟨some "M1", some "T", some "S", some "A", some "N"⟩

theorem c10_witness :
    (plantsPipeline c10P).Plant = some "0nan" ∧
    (storagePipeline c10S).Plant = some "0nan" ∧
    fillnaCell ((combine2 c10A (plantsPipeline c10P)).Plant) = "0nan" := by
  obtain ⟨a1, a2, _, a4, _, _⟩ := c10_nan_plant c10P c10S c10A rfl rfl
  refine ⟨a1, a2, ?_⟩
  rw [a4]
  rfl

end AggregateMaterials
